import Mathlib

/-!
Verification of `xltemplate`'s `TableSchema` component
(`src/xltemplate/schema.py`) against its natural-language specification.

The Python unit is a dataclass `TableSchema` with fields `column_names`
and `groups`, and three operations:

* `empty_df(n_rows)` — imports pandas lazily (raising `ImportError` when
  pandas is absent) and returns `pd.DataFrame(index=range(n_rows),
  columns=self.column_names)` when `n_rows > 0`, else
  `pd.DataFrame(columns=self.column_names)` (zero rows);
* `validate_df(df)` — returns `list(df.columns) == self.column_names`
  when `df` has a `columns` attribute, else `False`; `list(...)` raises
  `TypeError` when `columns` is not iterable;
* `__len__` — returns `len(self.column_names)`.

The embedding below models the runtime environment by a flag saying
whether pandas is importable, pandas DataFrames by their column labels,
row-index labels and cell grid (a fresh empty frame holds `NaN` in every
cell, modelled by `Cell.nan`), Python exceptions by an error type carried
in `Except`, and the duck-typed argument of `validate_df` by a small sum
type: no `columns` attribute, a `columns` attribute that is an iterable
list of labels, or a `columns` attribute that is a non-iterable integer.
-/

/-- Whether the external tabular library (pandas) can be imported. -/
structure Env where
  pandasAvailable : Bool
deriving DecidableEq

/-- Python exceptions raised by the unit: `ImportError` from the lazy
pandas import in `empty_df`, `TypeError` from `list(...)` applied to a
non-iterable `columns` attribute in `validate_df`. -/
inductive PyError where
  | importError (msg : String)
  | typeError (msg : String)
deriving DecidableEq

/-- A cell of a freshly constructed pandas DataFrame: `NaN` (absent) or a
concrete value. -/
inductive Cell where
  | nan
  | val (s : String)
deriving DecidableEq

/-- A pandas DataFrame as produced by `empty_df`: ordered column labels,
row-index labels, and the grid of cells (one inner list per row). -/
structure DataFrame where
  columns : List String
  index : List Nat
  rows : List (List Cell)
deriving DecidableEq

/-- The duck-typed argument of `validate_df`: an arbitrary Python value,
classified by whether it exposes a `columns` attribute and whether that
attribute is iterable.  `withBadColumns k` is an object whose `columns`
attribute is the integer `k` (non-iterable). -/
inductive PyObject where
  | noColumns
  | withColumns (cols : List String)
  | withBadColumns (k : Int)
deriving DecidableEq

/-- The `TableSchema` dataclass: ordered column names plus optional
`(group_name, span)` pairs for multi-level headers. -/
structure TableSchema where
  column_names : List String
  groups : Option (List (String × Int))
deriving DecidableEq

/-- The dataclass-generated constructor: it only stores the fields and
performs no checks, so it never raises (modelled by always returning
`Except.ok`). -/
def TableSchema.init (cols : List String) (g : Option (List (String × Int))) :
    Except PyError TableSchema :=
  Except.ok (TableSchema.mk cols g)

/-- `TableSchema.empty_df`: lazily imports pandas (failing with
`ImportError` when it is unavailable), then returns
`pd.DataFrame(index=range(n_rows), columns=self.column_names)` when
`n_rows > 0` — a frame with rows `0 .. n_rows-1` and every cell `NaN` —
and otherwise `pd.DataFrame(columns=self.column_names)`, a frame with
the schema's columns and zero rows.  Note the source has no negativity
check on `n_rows`: any `n_rows ≤ 0` takes the zero-row branch. -/
def TableSchema.empty_df (s : TableSchema) (env : Env) (n_rows : Int) :
    Except PyError DataFrame :=
  if env.pandasAvailable = false then
    Except.error (PyError.importError
      ("pandas is required to use empty_df(). Install it with: pip install pandas"))
  else if n_rows > 0 then
    Except.ok (DataFrame.mk s.column_names (List.range n_rows.toNat)
      (List.replicate n_rows.toNat (List.replicate s.column_names.length Cell.nan)))
  else
    Except.ok (DataFrame.mk s.column_names [] [])

/-- `TableSchema.validate_df`: `hasattr(df, "columns")` decides between
the two branches; on the attribute-bearing branch the source computes
`list(df.columns) == self.column_names`, where `list(...)` raises
`TypeError` if the attribute is not iterable. -/
def TableSchema.validate_df (s : TableSchema) (df : PyObject) :
    Except PyError Bool :=
  match df with
  | PyObject.noColumns => Except.ok false
  | PyObject.withColumns cols => Except.ok (cols == s.column_names)
  | PyObject.withBadColumns _ =>
      Except.error (PyError.typeError ("int object is not iterable"))

/-- `TableSchema.__len__`: returns `len(self.column_names)`. -/
def TableSchema.pyLen (s : TableSchema) : Nat :=
  s.column_names.length

/-- Whether an outcome is the `ImportError` (missing-dependency) failure. -/
def isImportErr {α : Type} : Except PyError α → Bool
  | Except.error (PyError.importError _) => true
  | _ => false

/-- A `__len__` call with explicit state passing: the method body reads
`self.column_names` and contains no assignment, so the post-state is the
calling schema unchanged. -/
def TableSchema.lenCall (s : TableSchema) : Nat × TableSchema :=
  (s.pyLen, s)

/-- An `empty_df` call with explicit state passing: the body only reads
`self.column_names` and assigns to no attribute. -/
def TableSchema.emptyDfCall (s : TableSchema) (env : Env) (n : Int) :
    (Except PyError DataFrame) × TableSchema :=
  (s.empty_df env n, s)

/-- A `validate_df` call with explicit state passing: the body only reads
`self.column_names` and assigns to no attribute. -/
def TableSchema.validateDfCall (s : TableSchema) (df : PyObject) :
    (Except PyError Bool) × TableSchema :=
  (s.validate_df df, s)

/-- C1 counterexample: the claim says every negative `rowCount` makes
`empty_df` fail with `InvalidArgument` rather than return a table, but at
`rowCount = -1` (pandas available) the code returns a zero-row table. -/
theorem C1_counterexample :
    (TableSchema.mk ["A"] none).empty_df (Env.mk true) (-1) =
      Except.ok (DataFrame.mk ["A"] [] []) := by
  rfl

/-- C1 amended: `empty_df` performs no negativity check; when the tabular
library is available, every negative `rowCount` silently takes the
zero-row branch and returns a table with the schema's columns and no
rows, exactly as `rowCount = 0` does. -/
theorem C1_amended_negative_rowcount (s : TableSchema) (n : Int) (h : n < 0) :
    s.empty_df (Env.mk true) n = Except.ok (DataFrame.mk s.column_names [] []) := by
  unfold TableSchema.empty_df
  simp [not_lt.mpr (le_of_lt h)]

/-- Witness for the amended C1 at the concrete input `rowCount = -1`. -/
theorem C1_amended_negative_rowcount_witness :
    (TableSchema.mk ["A", "B"] none).empty_df (Env.mk true) (-1) =
      Except.ok (DataFrame.mk ["A", "B"] [] []) :=
  C1_amended_negative_rowcount (TableSchema.mk ["A", "B"] none) (-1) (by decide)

/-- C2: for every schema and every input exposing an ordered column-label
list, `validate_df` returns `true` iff that list equals `column_names`
element-by-element and in order, and returns `false` (rather than raising)
in every other case — so any reordering, renaming, omission or addition
yields `false`. -/
theorem C2_validate_exact_match (s : TableSchema) (cols : List String) :
    (s.validate_df (PyObject.withColumns cols) = Except.ok true ↔ cols = s.column_names)
  ∧ (s.validate_df (PyObject.withColumns cols) = Except.ok false ↔ cols ≠ s.column_names) := by
  simp [TableSchema.validate_df]

/-- C3: with the tabular library available, for every `rowCount ≥ 0`
`empty_df` returns a table whose columns are exactly `column_names` in
order, whose row index is `0 .. rowCount-1` (empty when `rowCount = 0`),
with `rowCount` rows in which every cell is the absent value `NaN`. -/
theorem C3_empty_df_shape (s : TableSchema) (n : Int) (h : 0 ≤ n) :
    ∃ df : DataFrame, s.empty_df (Env.mk true) n = Except.ok df
      ∧ df.columns = s.column_names
      ∧ df.index = List.range n.toNat
      ∧ df.rows.length = n.toNat
      ∧ ∀ row ∈ df.rows, row.length = s.column_names.length ∧ ∀ c ∈ row, c = Cell.nan := by
  by_cases hn : n > 0
  · refine ⟨DataFrame.mk s.column_names (List.range n.toNat)
      (List.replicate n.toNat (List.replicate s.column_names.length Cell.nan)),
      ?_, rfl, rfl, ?_, ?_⟩
    · unfold TableSchema.empty_df
      simp [hn]
    · simp
    · intro row hrow
      have : row = List.replicate s.column_names.length Cell.nan :=
        List.eq_of_mem_replicate hrow
      subst this
      exact ⟨List.length_replicate _ _, fun c hc => List.eq_of_mem_replicate hc⟩
  · have h0 : n = 0 := le_antisymm (not_lt.mp hn) h
    subst h0
    refine ⟨DataFrame.mk s.column_names [] [], ?_, rfl, by simp, rfl, by simp⟩
    unfold TableSchema.empty_df
    simp

/-- Witness for C3 at the concrete schema `["A", "B"]` and `rowCount = 2`. -/
theorem C3_empty_df_shape_witness :
    ∃ df : DataFrame,
      (TableSchema.mk ["A", "B"] none).empty_df (Env.mk true) 2 = Except.ok df
      ∧ df.columns = ["A", "B"]
      ∧ df.index = List.range (2 : Int).toNat
      ∧ df.rows.length = (2 : Int).toNat
      ∧ ∀ row ∈ df.rows, row.length = (["A", "B"] : List String).length
          ∧ ∀ c ∈ row, c = Cell.nan :=
  C3_empty_df_shape (TableSchema.mk ["A", "B"] none) 2 (by decide)

/-- C4: for every input that does not expose a column-label list,
`validate_df` returns `false` and raises no exception (the outcome is
`Except.ok false`, never `Except.error`). -/
theorem C4_no_columns_yields_false (s : TableSchema) :
    s.validate_df PyObject.noColumns = Except.ok false :=
  rfl

/-- C5: the missing-dependency failure is lazy. Constructing a schema
always succeeds without consulting the environment; `empty_df` raises the
`ImportError` exactly when pandas is unavailable; and the schema remains
inspectable without pandas: `__len__` is a total function of the fields
and `validate_df` never produces an import error. -/
theorem C5_missing_dependency_lazy (cols : List String)
    (g : Option (List (String × Int))) (env : Env) (n : Int) :
    TableSchema.init cols g = Except.ok (TableSchema.mk cols g)
  ∧ isImportErr ((TableSchema.mk cols g).empty_df env n) = !env.pandasAvailable
  ∧ (TableSchema.mk cols g).pyLen = cols.length
  ∧ ∀ df : PyObject, isImportErr ((TableSchema.mk cols g).validate_df df) = false := by
  refine ⟨rfl, ?_, rfl, ?_⟩
  · cases env with
  | mk p =>
    cases p
    · rfl
    · unfold TableSchema.empty_df isImportErr
      by_cases hn : n > 0 <;> simp [hn]
  · intro df
    cases df <;> rfl

/-- C6: for every `columnNames` list (and any grouping), `__len__` of the
constructed schema returns the length of `columnNames`; being a total
function, it has no failure conditions. -/
theorem C6_len_is_column_count (cols : List String)
    (g : Option (List (String × Int))) :
    (TableSchema.mk cols g).pyLen = cols.length :=
  rfl

/-- C7: construction of a schema succeeds for every `columnNames` list and
every `groups` value — in particular also when the group spans do not sum
to the number of columns — and stores the fields unchanged. -/
theorem C7_construction_never_fails (cols : List String)
    (g : Option (List (String × Int))) :
    TableSchema.init cols g = Except.ok (TableSchema.mk cols g)
    ∧ ∀ gs : List (String × Int), (gs.map Prod.snd).sum ≠ (cols.length : Int) →
        TableSchema.init cols (some gs) = Except.ok (TableSchema.mk cols (some gs)) :=
  ⟨rfl, fun _ _ => rfl⟩

/-- C8: two schemas with the same `column_names` but arbitrary (possibly
different or absent) `groups` produce identical `empty_df` results for
every environment and row count, and identical `validate_df` results for
every input: grouping metadata affects neither operation. -/
theorem C8_groups_irrelevant (s₁ s₂ : TableSchema)
    (h : s₁.column_names = s₂.column_names) :
    (∀ (env : Env) (n : Int), s₁.empty_df env n = s₂.empty_df env n)
  ∧ (∀ df : PyObject, s₁.validate_df df = s₂.validate_df df) := by
  constructor
  · intro env n
    unfold TableSchema.empty_df
    rw [h]
  · intro df
    cases df <;> simp [TableSchema.validate_df, h]

/-- Witness for C8: schemas `["A"]` without groups and with a group of
span 1 agree on a concrete `empty_df` call and a concrete `validate_df`
call. -/
theorem C8_groups_irrelevant_witness :
    (TableSchema.mk ["A"] none).empty_df (Env.mk true) 2 =
      (TableSchema.mk ["A"] (some [("G", 1)])).empty_df (Env.mk true) 2
  ∧ (TableSchema.mk ["A"] none).validate_df (PyObject.withColumns ["A"]) =
      (TableSchema.mk ["A"] (some [("G", 1)])).validate_df (PyObject.withColumns ["A"]) :=
  ⟨(C8_groups_irrelevant (TableSchema.mk ["A"] none)
      (TableSchema.mk ["A"] (some [("G", 1)])) rfl).1 (Env.mk true) 2,
   (C8_groups_irrelevant (TableSchema.mk ["A"] none)
      (TableSchema.mk ["A"] (some [("G", 1)])) rfl).2 (PyObject.withColumns ["A"])⟩

/-- C9: no operation mutates the schema: after a `__len__`, `empty_df` or
`validate_df` call (modelled with explicit state passing), the schema's
`column_names` and `groups` fields are unchanged. -/
theorem C9_operations_do_not_mutate (s : TableSchema) (env : Env) (n : Int)
    (df : PyObject) :
    (s.lenCall).2 = s ∧ ((s.emptyDfCall env n).2 = s) ∧ ((s.validateDfCall df).2 = s) :=
  ⟨rfl, rfl, rfl⟩

/-- C10: `validate_df` is exception-free only when the input lacks a
`columns` attribute or exposes an iterable one: those cases always return
a boolean, while an input whose `columns` attribute is the non-iterable
integer `7` makes `validate_df` raise a `TypeError` instead of returning
a boolean. -/
theorem C10_noniterable_columns_raise :
    (∀ s : TableSchema, s.validate_df PyObject.noColumns = Except.ok false)
  ∧ (∀ (s : TableSchema) (cols : List String),
      ∃ b : Bool, s.validate_df (PyObject.withColumns cols) = Except.ok b)
  ∧ (TableSchema.mk ["A", "B"] none).validate_df (PyObject.withBadColumns 7) =
      Except.error (PyError.typeError ("int object is not iterable")) :=
  ⟨fun _ => rfl, fun s cols => ⟨cols == s.column_names, rfl⟩, rfl⟩
